import Mathlib

/-!
Shallow embedding of the bitflyer-rs client (src/lib.rs, src/api.rs,
src/entity.rs) and proofs about its request signing, URL building,
timestamp decoding and domain model.

Machine integers are modelled as `Nat` with explicit reduction `% 2 ^ 32`
where the Rust code computes on 32-bit words (SHA-256); byte strings are
`List Nat` with every element below 256.
-/

namespace Bitflyer

/-! ### SHA-256 (the `sha2::Sha256` hasher used by `Client::send`) -/

/-- `2 ^ 32`, the modulus for 32-bit word arithmetic. -/
def w32 : Nat := 2 ^ 32

/-- Right rotation of a 32-bit word by `n` bits. -/
def rotr32 (x n : Nat) : Nat := ((x >>> n) ||| (x <<< (32 - n))) % w32

/-- Bitwise complement of a 32-bit word. -/
def not32 (x : Nat) : Nat := x ^^^ (w32 - 1)

/-- The running 8-word SHA-256 state. -/
structure Sha2State where
  a : Nat
  b : Nat
  c : Nat
  d : Nat
  e : Nat
  f : Nat
  g : Nat
  h : Nat
  deriving Repr, DecidableEq

/-- The SHA-256 initial hash value H(0) (the FIPS 180-4 words, in decimal). -/
def sha256Init : Sha2State :=
  ⟨1779033703, 3144134277, 1013904242, 2773480762,
   1359893119, 2600822924, 528734635, 1541459225⟩

/-- The 64 SHA-256 round constants K (the FIPS 180-4 words, in decimal). -/
def sha256K : List Nat :=
  [1116352408, 1899447441, 3049323471, 3921009573, 961987163, 1508970993,
   2453635748, 2870763221, 3624381080, 310598401, 607225278, 1426881987,
   1925078388, 2162078206, 2614888103, 3248222580, 3835390401, 4022224774,
   264347078, 604807628, 770255983, 1249150122, 1555081692, 1996064986,
   2554220882, 2821834349, 2952996808, 3210313671, 3336571891, 3584528711,
   113926993, 338241895, 666307205, 773529912, 1294757372, 1396182291,
   1695183700, 1986661051, 2177026350, 2456956037, 2730485921, 2820302411,
   3259730800, 3345764771, 3516065817, 3600352804, 4094571909, 275423344,
   430227734, 506948616, 659060556, 883997877, 958139571, 1322822218,
   1537002063, 1747873779, 1955562222, 2024104815, 2227730452, 2361852424,
   2428436474, 2756734187, 3204031479, 3329325298]

/-- One SHA-256 compression round with round constant `k` and schedule word `w`. -/
def sha256Round (st : Sha2State) (k w : Nat) : Sha2State :=
  let s1 := rotr32 st.e 6 ^^^ rotr32 st.e 11 ^^^ rotr32 st.e 25
  let ch := (st.e &&& st.f) ^^^ (not32 st.e &&& st.g)
  let t1 := (st.h + s1 + ch + k + w) % w32
  let s0 := rotr32 st.a 2 ^^^ rotr32 st.a 13 ^^^ rotr32 st.a 22
  let maj := (st.a &&& st.b) ^^^ (st.a &&& st.c) ^^^ (st.b &&& st.c)
  let t2 := (s0 + maj) % w32
  ⟨(t1 + t2) % w32, st.a, st.b, st.c, (st.d + t1) % w32, st.e, st.f, st.g⟩

/-- Extend the 16 words of a block to the 64-word message schedule. -/
def sha256Schedule (block : List Nat) : List Nat :=
  (List.range 64).foldl
    (fun ws t =>
      if t < 16 then ws ++ [block.getD t 0]
      else
        let w15 := ws.getD (t - 15) 0
        let w2 := ws.getD (t - 2) 0
        let s0 := rotr32 w15 7 ^^^ rotr32 w15 18 ^^^ (w15 >>> 3)
        let s1 := rotr32 w2 17 ^^^ rotr32 w2 19 ^^^ (w2 >>> 10)
        ws ++ [(ws.getD (t - 16) 0 + s0 + ws.getD (t - 7) 0 + s1) % w32])
    []

/-- Compress one 16-word block into the state. -/
def sha256Compress (st : Sha2State) (block : List Nat) : Sha2State :=
  let ws := sha256Schedule block
  let t := (sha256K.zip ws).foldl (fun s p => sha256Round s p.1 p.2) st
  ⟨(st.a + t.a) % w32, (st.b + t.b) % w32, (st.c + t.c) % w32, (st.d + t.d) % w32,
   (st.e + t.e) % w32, (st.f + t.f) % w32, (st.g + t.g) % w32, (st.h + t.h) % w32⟩

/-- `width` big-endian bytes of `n`. -/
def beBytes (n : Nat) : Nat → List Nat
  | 0 => []
  | width + 1 => (n >>> (8 * width)) % 256 :: beBytes n width

/-- Group a byte list into big-endian 32-bit words (length a multiple of 4 after padding). -/
def bytesToWords32 : List Nat → List Nat
  | b0 :: b1 :: b2 :: b3 :: rest =>
      (b0 * 0x1000000 + b1 * 0x10000 + b2 * 0x100 + b3) :: bytesToWords32 rest
  | _ => []

/-- Split a byte list into chunks of 64; `fuel` bounds the recursion (pass the length). -/
def chunksOf64 : Nat → List Nat → List (List Nat)
  | 0, _ => []
  | _, [] => []
  | fuel + 1, l => l.take 64 :: chunksOf64 fuel (l.drop 64)

/-- SHA-256 padding: `0x80`, zeros to 56 mod 64, then the 64-bit big-endian bit length. -/
def sha256Pad (msg : List Nat) : List Nat :=
  msg ++ [0x80] ++ List.replicate ((119 - msg.length % 64) % 64) 0
      ++ beBytes (msg.length * 8) 8

/-- The four big-endian bytes of a 32-bit word. -/
def wordBE4 (n : Nat) : List Nat :=
  [(n >>> 24) % 256, (n >>> 16) % 256, (n >>> 8) % 256, n % 256]

/-- The 32 output bytes of a final SHA-256 state. -/
def Sha2State.bytes (st : Sha2State) : List Nat :=
  wordBE4 st.a ++ wordBE4 st.b ++ wordBE4 st.c ++ wordBE4 st.d ++
  wordBE4 st.e ++ wordBE4 st.f ++ wordBE4 st.g ++ wordBE4 st.h

/-- SHA-256 of a byte string. -/
def sha256 (msg : List Nat) : List Nat :=
  let padded := sha256Pad msg
  let blocks := chunksOf64 padded.length padded
  (blocks.foldl (fun st b => sha256Compress st (bytesToWords32 b)) sha256Init).bytes

/-! ### HMAC-SHA256 (`hmac::Hmac<Sha256>` with `new_from_slice` / `update` / `finalize`) -/

/-- HMAC-SHA256 with block size 64: hash an over-long key, zero-pad,
XOR with the inner and outer pads, and nest two SHA-256 calls. -/
def hmacSha256 (key msg : List Nat) : List Nat :=
  let k0 := if 64 < key.length then sha256 key else key
  let k := k0 ++ List.replicate (64 - k0.length) 0
  sha256 ((k.map (fun b => b ^^^ 0x5c)) ++ sha256 ((k.map (fun b => b ^^^ 0x36)) ++ msg))

/-! ### Lowercase hex rendering (`format!("{:02x}", n)` collected over the digest) -/

/-- The sixteen lowercase hex digits. -/
def hexChars : List Char := "0123456789abcdef".toList

/-- The two lowercase hex characters of one byte, high nibble first. -/
def byteHex (b : Nat) : List Char :=
  [hexChars.getD ((b / 16) % 16) '0', hexChars.getD (b % 16) '0']

/-- Render a byte string as lowercase hex. -/
def bytesToHex (bs : List Nat) : String := ⟨bs.flatMap byteHex⟩

/-! ### UTF-8 bytes of a string (`str::as_bytes`) -/

/-- UTF-8 encoding of one character. -/
def utf8EncodeChar (c : Char) : List Nat :=
  let n := c.toNat
  if n < 0x80 then [n]
  else if n < 0x800 then
    [0xc0 ||| (n >>> 6), 0x80 ||| (n &&& 0x3f)]
  else if n < 0x10000 then
    [0xe0 ||| (n >>> 12), 0x80 ||| ((n >>> 6) &&& 0x3f), 0x80 ||| (n &&& 0x3f)]
  else
    [0xf0 ||| (n >>> 18), 0x80 ||| ((n >>> 12) &&& 0x3f),
     0x80 ||| ((n >>> 6) &&& 0x3f), 0x80 ||| (n &&& 0x3f)]

/-- UTF-8 bytes of a string. -/
def utf8Bytes (s : String) : List Nat := s.toList.flatMap utf8EncodeChar

/-! ### Domain model (src/entity.rs) -/

/-- `rust_decimal::Decimal`: an exact base-10 fixed-point number,
`mantissa * 10 ^ (- scale)`. -/
structure Decimal where
  mantissa : Int
  scale : Nat
  deriving Repr, DecidableEq

/-- `Side` (entity.rs): order side, serialized UPPERCASE. -/
inductive Side where
  | Buy
  | Sell
  deriving Repr, DecidableEq

/-- `ProductCode` (entity.rs): closed list of pairs plus the `#[serde(other)]`
catch-all `Other`, serialized SCREAMING_SNAKE_CASE. -/
inductive ProductCode where
  | BtcJpy
  | XrpJpy
  | EthJpy
  | XlmJpy
  | MonaJpy
  | EthBtc
  | BchBtc
  | FxBtcJpy
  | Other
  deriving Repr, DecidableEq

/-- `ProductCode::to_string` (entity.rs): the serde wire name with the JSON
quotes trimmed, i.e. the SCREAMING_SNAKE_CASE variant name. -/
def ProductCode.to_string : ProductCode → String
  | .BtcJpy => "BTC_JPY"
  | .XrpJpy => "XRP_JPY"
  | .EthJpy => "ETH_JPY"
  | .XlmJpy => "XLM_JPY"
  | .MonaJpy => "MONA_JPY"
  | .EthBtc => "ETH_BTC"
  | .BchBtc => "BCH_BTC"
  | .FxBtcJpy => "FX_BTC_JPY"
  | .Other => "OTHER"

/-- `ChildOrderType` (entity.rs): internally tagged by `child_order_type`. -/
inductive ChildOrderType where
  | Limit (price : Decimal)
  | Market
  deriving Repr, DecidableEq

/-- `ParentOrderConditionType` (entity.rs): internally tagged by
`condition_type`, five closed variants. -/
inductive ParentOrderConditionType where
  | Limit (product_code : ProductCode) (side : Side) (size : Decimal) (price : Decimal)
  | Market (product_code : ProductCode) (side : Side) (size : Decimal)
  | Stop (product_code : ProductCode) (side : Side) (size : Decimal) (trigger_price : Decimal)
  | StopLimit (product_code : ProductCode) (side : Side) (size : Decimal)
      (price : Decimal) (trigger_price : Decimal)
  | Trail (product_code : ProductCode) (side : Side) (size : Decimal) (offset : Nat)
  deriving Repr, DecidableEq

/-- A Rust fixed-size array `[α; n]`: a list whose length is pinned by the type. -/
def Arr (α : Type) (n : Nat) : Type := { l : List α // l.length = n }

/-- `ParentOrderMethod` (entity.rs): each strategy variant stores its
conditions in a fixed-size array — `[_; 1]`, `[_; 2]`, `[_; 2]`, `[_; 3]`. -/
inductive ParentOrderMethod where
  | Simple (parameters : Arr ParentOrderConditionType 1)
  | Ifd (parameters : Arr ParentOrderConditionType 2)
  | Oco (parameters : Arr ParentOrderConditionType 2)
  | Ifdoco (parameters : Arr ParentOrderConditionType 3)

/-- The conditions stored in a `ParentOrderMethod`, as a plain list. -/
def ParentOrderMethod.parameters : ParentOrderMethod → List ParentOrderConditionType
  | .Simple p => p.val
  | .Ifd p => p.val
  | .Oco p => p.val
  | .Ifdoco p => p.val

/-- The declared arity of each order-combination strategy. -/
def ParentOrderMethod.arity : ParentOrderMethod → Nat
  | .Simple _ => 1
  | .Ifd _ => 2
  | .Oco _ => 2
  | .Ifdoco _ => 3

/-! ### Query builder (`ApiRequest::url`, `QueryValue::to_query_parameter`) -/

/-- The fixed HTTPS origin (api.rs `ENTRY_POINT`). -/
def ENTRY_POINT : String := "https://api.bitflyer.com"

/-- The sixteen uppercase hex digits (percent-encoding uses uppercase). -/
def hexCharsUpper : List Char := "0123456789ABCDEF".toList

/-- Bytes left verbatim by `application/x-www-form-urlencoded` serialization:
ASCII alphanumerics and `*` `-` `.` `_`. -/
def isFormUnreserved (b : Nat) : Bool :=
  (48 ≤ b && b ≤ 57) || (65 ≤ b && b ≤ 90) || (97 ≤ b && b ≤ 122) ||
  b == 42 || b == 45 || b == 46 || b == 95

/-- Form-urlencode one byte: space to `+`, unreserved verbatim, else `%XX`. -/
def formUrlencodeByte (b : Nat) : List Char :=
  if b == 32 then ['+']
  else if isFormUnreserved b then [Char.ofNat b]
  else ['%', hexCharsUpper.getD ((b / 16) % 16) '0', hexCharsUpper.getD (b % 16) '0']

/-- Form-urlencode a string (the encoding `Url::parse_with_params` applies to
every query name and value). -/
def formUrlencode (s : String) : String := ⟨(utf8Bytes s).flatMap formUrlencodeByte⟩

/-- Join encoded `name=value` pieces with `&`. -/
def joinAmp : List String → String
  | [] => ""
  | [x] => x
  | x :: y :: ys => x ++ "&" ++ joinAmp (y :: ys)

/-- The query string `Url::parse_with_params` serializes for a pair list. -/
def queryString (ps : List (String × String)) : String :=
  joinAmp (ps.map (fun p => formUrlencode p.1 ++ "=" ++ formUrlencode p.2))

/-- A parsed `reqwest::Url`: the rendered absolute URL and its query component
(`Url::query`, `none` when the URL has no `?`). -/
structure Url where
  full : String
  query : Option String
  deriving Repr, DecidableEq

/-- `ApiRequest::url` (api.rs): drop absent parameters; with none left parse
the bare `ENTRY_POINT ++ PATH`, otherwise parse it with the remaining pairs
appended as a form-urlencoded query. (`Url::parse` cannot fail on these
inputs, so the `Result` wrapper is not modelled.) -/
def buildUrl (path : String) (params : List (Option (String × String))) : Url :=
  let ps := params.filterMap id
  if ps.isEmpty then ⟨ENTRY_POINT ++ path, none⟩
  else ⟨ENTRY_POINT ++ path ++ "?" ++ queryString ps, some (queryString ps)⟩

/-- `QueryValue::to_query_parameter` for `Option<T: ToString>` (api.rs):
keep the key and the `ToString` rendering when the value is present. -/
def to_query_parameter {α : Type} (toStr : α → String) (v : Option α)
    (key : String) : Option (String × String) :=
  v.map (fun x => (key, toStr x))

/-! ### Signing protocol and dispatch engine (`Client::send`, api.rs) -/

/-- The canonical signing string of `Client::send`:
`format!("{}{}{}{}{}", timestamp, METHOD, PATH, query-with-?, body)`. -/
def signData (timestamp : Int) (method path : String)
    (query : Option String) (body : Option String) : String :=
  toString timestamp ++ method ++ path ++
    (query.map (fun x => "?" ++ x)).getD "" ++ body.getD ""

/-- The ACCESS-SIGN header value: lowercase-hex HMAC-SHA256 of the canonical
string under the configured secret. -/
def accessSign (secret : List Nat) (data : String) : String :=
  bytesToHex (hmacSha256 secret (utf8Bytes data))

/-- An HTTP request as handed to the transport. -/
structure HttpRequest where
  method : String
  url : String
  headers : List (String × String)
  body : Option String
  deriving Repr, DecidableEq

/-- An HTTP response as returned by the transport. -/
structure HttpResponse where
  status : Nat
  body : String

/-- `StatusCode::is_success`: 2xx. -/
def statusIsSuccess (s : Nat) : Bool := 200 ≤ s && s < 300

/-- One `impl ApiRequest for T` together with a value of `T`: the constants
`PATH`, `IS_PRIVATE`, `METHOD`, the value's `url_params()` and `body()`, the
plain serde decode of the response type (`serde_json::from_str`), and the
possibly overridden `deserialize_response_body`. -/
structure ApiRequestImpl (ρ : Type) where
  PATH : String
  IS_PRIVATE : Bool
  METHOD : String
  url_params : List (Option (String × String))
  body : Except String (Option String)
  json_decode : String → Except String ρ
  deserialize_response_body : String → Except String ρ

/-- The default `ApiRequest::url` in terms of the query builder. -/
def ApiRequestImpl.url {ρ : Type} (d : ApiRequestImpl ρ) : Url :=
  buildUrl d.PATH d.url_params

/-- The response half of `Client::send`: decode on 2xx, structured error
otherwise. -/
def handleResponse {ρ : Type} (d : ApiRequestImpl ρ) (resp : HttpResponse) :
    Except String ρ :=
  if statusIsSuccess resp.status then d.deserialize_response_body resp.body
  else .error ("request is failed: status -> " ++ toString resp.status)

/-- The `Client` state: API key and the optional HMAC hasher keyed by the
secret (present exactly when `API_SECRET` was configured). -/
structure Client where
  api_key : String
  hasher : Option (List Nat)

/-- `Client::send` (api.rs lines 43-102), with `Utc::now().timestamp()`
passed in as `now` and the network modelled as a pure `transport` function.
Returns the call's result together with the list of requests handed to the
transport, in order. -/
def Client.send {ρ : Type} (c : Client) (now : Int) (d : ApiRequestImpl ρ)
    (transport : HttpRequest → HttpResponse) :
    Except String ρ × List HttpRequest :=
  let url := d.url
  if d.IS_PRIVATE then
    match d.body with
    | .error e => (.error e, [])
    | .ok body =>
      let data := signData now d.METHOD d.PATH url.query body
      match c.hasher with
      | none => (.error "hasher is none", [])
      | some secret =>
        let hash := accessSign secret data
        let headers := [("ACCESS-KEY", c.api_key),
                        ("ACCESS-TIMESTAMP", toString now),
                        ("ACCESS-SIGN", hash)]
        match body with
        | some b =>
          let req : HttpRequest :=
            ⟨d.METHOD, url.full, headers ++ [("Content-Type", "application/json")], some b⟩
          (handleResponse d (transport req), [req])
        | none =>
          let req : HttpRequest := ⟨d.METHOD, url.full, headers, none⟩
          (handleResponse d (transport req), [req])
  else
    let req : HttpRequest := ⟨d.METHOD, url.full, [], none⟩
    (handleResponse d (transport req), [req])

/-- The free function `send_api` (api.rs lines 147-164): `reqwest::get` on the
descriptor's URL — a plain GET with no headers and no body — then
`serde_json::from_str` on a 2xx body. -/
def send_api {ρ : Type} (d : ApiRequestImpl ρ)
    (transport : HttpRequest → HttpResponse) :
    Except String ρ × List HttpRequest :=
  let req : HttpRequest := ⟨"GET", d.url.full, [], none⟩
  let result := transport req
  if statusIsSuccess result.status then (d.json_decode result.body, [req])
  else (.error ("request is failed: status -> " ++ toString result.status), [req])

/-! ### Endpoint declarations the claims touch -/

/-- The empty response type (api.rs `Empty`). -/
structure Empty where
  deriving Repr, DecidableEq

/-- serde decode of the unit struct `Empty` (`serde_json::from_str::<Empty>`
accepts JSON `null`); unused by the cancellation endpoints, which override
`deserialize_response_body`. -/
def Empty.from_json (s : String) : Except String Empty :=
  if s = "null" then .ok ⟨⟩ else .error "invalid type"

/-- `CancelChildOrder::PATH`. -/
def CancelChildOrder.PATH : String := "/v1/me/cancelchildorder"

/-- `CancelChildOrder::deserialize_response_body` (api.rs lines 326-333). -/
def CancelChildOrder.deserialize_response_body (body : String) :
    Except String Empty :=
  if body.isEmpty then .ok ⟨⟩ else .error "body is not empty"

/-- `CancelParentOrder::PATH`. -/
def CancelParentOrder.PATH : String := "/v1/me/cancelparentorder"

/-- `CancelParentOrder::deserialize_response_body` (api.rs lines 377-384). -/
def CancelParentOrder.deserialize_response_body (body : String) :
    Except String Empty :=
  if body.isEmpty then .ok ⟨⟩ else .error "body is not empty"

/-- `CancelAllChildOrders::PATH`. -/
def CancelAllChildOrders.PATH : String := "/v1/me/cancelallchildorders"

/-- `CancelAllChildOrders::deserialize_response_body` (api.rs lines 401-408). -/
def CancelAllChildOrders.deserialize_response_body (body : String) :
    Except String Empty :=
  if body.isEmpty then .ok ⟨⟩ else .error "body is not empty"

/-- The descriptors in api.rs that override `deserialize_response_body` to
expect an empty success body, with their paths: exactly the cancellation
endpoints declared in the source. -/
def cancellationEndpoints : List (String × (String → Except String Empty)) :=
  [(CancelChildOrder.PATH, CancelChildOrder.deserialize_response_body),
   (CancelParentOrder.PATH, CancelParentOrder.deserialize_response_body),
   (CancelAllChildOrders.PATH, CancelAllChildOrders.deserialize_response_body)]

/-- `GetTicker::PATH`. -/
def GetTicker.PATH : String := "/v1/ticker"

/-- The request value `GetTicker` (api.rs lines 189-200). -/
structure GetTicker where
  product_code : Option ProductCode
  deriving Repr, DecidableEq

/-- `GetTicker::url_params`. -/
def GetTicker.url_params (r : GetTicker) : List (Option (String × String)) :=
  [to_query_parameter ProductCode.to_string r.product_code "product_code"]

/-- The request value `GetChildOrders` (api.rs lines 410-418). -/
structure GetChildOrders where
  product_code : Option ProductCode
  count : Option Nat
  before : Option Nat
  after : Option Nat
  child_order_acceptance_id : Option String
  parent_order_id : Option String
  deriving Repr, DecidableEq

/-- `GetChildOrders::PATH`. -/
def GetChildOrders.PATH : String := "/v1/me/getchildorders"

/-- `GetChildOrders::url_params` (api.rs lines 425-435); note the source maps
the `parent_order_id` field to the query key `child_order_id`. -/
def GetChildOrders.url_params (r : GetChildOrders) :
    List (Option (String × String)) :=
  [to_query_parameter ProductCode.to_string r.product_code "product_code",
   to_query_parameter toString r.count "count",
   to_query_parameter toString r.before "before",
   to_query_parameter toString r.after "after",
   to_query_parameter id r.child_order_acceptance_id "child_order_acceptance_id",
   to_query_parameter id r.parent_order_id "child_order_id"]

/-! ### JSON decoding of the tagged unions (serde derives in entity.rs) -/

/-- A JSON value; numbers carry the exact decimal `rust_decimal` reads. -/
inductive Json where
  | null
  | bool (b : Bool)
  | num (d : Decimal)
  | str (s : String)
  | arr (xs : List Json)
  | obj (fields : List (String × Json))

/-- Look up a field of a JSON object. -/
def Json.getField (j : Json) (key : String) : Option Json :=
  match j with
  | .obj fields => fields.lookup key
  | _ => none

/-- The string value of a field, when the field is present and a string —
how serde reads an internal tag. -/
def Json.tag (j : Json) (key : String) : Option String :=
  match j.getField key with
  | some (.str t) => some t
  | _ => none

/-- serde decode of `Decimal` from a JSON number. -/
def decodeDecimal : Json → Except String Decimal
  | .num d => .ok d
  | _ => .error "invalid type: expected a Decimal"

/-- serde decode of a `u64` from a non-negative scale-0 JSON number. -/
def decodeU64 : Json → Except String Nat
  | .num ⟨m, 0⟩ => if 0 ≤ m then .ok m.toNat else .error "invalid value: negative"
  | _ => .error "invalid type: expected u64"

/-- serde decode of `Side` (UPPERCASE wire names, closed set). -/
def decodeSide : Json → Except String Side
  | .str s =>
    if s = "BUY" then .ok .Buy
    else if s = "SELL" then .ok .Sell
    else .error ("unknown variant " ++ s)
  | _ => .error "invalid type: expected Side"

/-- serde decode of `ProductCode`: the eight SCREAMING_SNAKE_CASE wire names,
with `#[serde(other)]` sending every other string to `Other`. -/
def decodeProductCode : Json → Except String ProductCode
  | .str s =>
    .ok (if s = "BTC_JPY" then .BtcJpy
      else if s = "XRP_JPY" then .XrpJpy
      else if s = "ETH_JPY" then .EthJpy
      else if s = "XLM_JPY" then .XlmJpy
      else if s = "MONA_JPY" then .MonaJpy
      else if s = "ETH_BTC" then .EthBtc
      else if s = "BCH_BTC" then .BchBtc
      else if s = "FX_BTC_JPY" then .FxBtcJpy
      else .Other)
  | _ => .error "invalid type: expected ProductCode"

/-- The closed discriminator set of `ChildOrderType`. -/
def childOrderTypeTags : List String := ["LIMIT", "MARKET"]

/-- serde decode of the internally tagged `ChildOrderType`
(`tag = "child_order_type"`, UPPERCASE variant names). -/
def decodeChildOrderType (j : Json) : Except String ChildOrderType :=
  match j.tag "child_order_type" with
  | some t =>
    if t = "LIMIT" then
      match j.getField "price" with
      | some p => (decodeDecimal p).map (fun d => .Limit d)
      | none => .error "missing field price"
    else if t = "MARKET" then .ok .Market
    else .error ("unknown variant " ++ t)
  | none => .error "missing field child_order_type"

/-- The closed discriminator set of `ParentOrderConditionType`. -/
def parentOrderConditionTags : List String :=
  ["LIMIT", "MARKET", "STOP", "STOPLIMIT", "TRAIL"]

/-- serde decode of the internally tagged `ParentOrderConditionType`
(`tag = "condition_type"`, UPPERCASE variant names). -/
def decodeParentOrderConditionType (j : Json) :
    Except String ParentOrderConditionType :=
  match j.tag "condition_type" with
  | some t =>
    match j.getField "product_code", j.getField "side", j.getField "size" with
    | some pcJ, some sideJ, some sizeJ =>
      match decodeProductCode pcJ, decodeSide sideJ, decodeDecimal sizeJ with
      | .ok pc, .ok side, .ok size =>
        if t = "LIMIT" then
          match j.getField "price" with
          | some p => (decodeDecimal p).map (fun d => .Limit pc side size d)
          | none => .error "missing field price"
        else if t = "MARKET" then .ok (.Market pc side size)
        else if t = "STOP" then
          match j.getField "trigger_price" with
          | some p => (decodeDecimal p).map (fun d => .Stop pc side size d)
          | none => .error "missing field trigger_price"
        else if t = "STOPLIMIT" then
          match j.getField "price", j.getField "trigger_price" with
          | some p, some tp =>
            match decodeDecimal p, decodeDecimal tp with
            | .ok dp, .ok dtp => .ok (.StopLimit pc side size dp dtp)
            | .error e, _ => .error e
            | _, .error e => .error e
          | _, _ => .error "missing field"
        else if t = "TRAIL" then
          match j.getField "offset" with
          | some o => (decodeU64 o).map (fun n => .Trail pc side size n)
          | none => .error "missing field offset"
        else .error ("unknown variant " ++ t)
      | .error e, _, _ => .error e
      | _, .error e, _ => .error e
      | _, _, .error e => .error e
    | _, _, _ => .error "missing field"
  | none => .error "missing field condition_type"

/-! ### Timestamp codec (src/lib.rs `deserializer`) -/

/-- `chrono::DateTime<Utc>`: a timezone-aware instant as seconds since the
Unix epoch plus a subsecond nanosecond count. -/
structure Timestamp where
  secs : Int
  nanos : Nat
  deriving Repr, DecidableEq

/-- Decimal value of an ASCII digit. -/
def digitVal (c : Char) : Nat := c.toNat - 48

/-- Two ASCII digits, returning the value and the rest. -/
def parse2 : List Char → Option (Nat × List Char)
  | c1 :: c2 :: rest =>
    if c1.isDigit && c2.isDigit then some (digitVal c1 * 10 + digitVal c2, rest)
    else none
  | _ => none

/-- Four ASCII digits, returning the value and the rest. -/
def parse4 : List Char → Option (Nat × List Char)
  | c1 :: c2 :: c3 :: c4 :: rest =>
    if c1.isDigit && c2.isDigit && c3.isDigit && c4.isDigit then
      some (digitVal c1 * 1000 + digitVal c2 * 100 + digitVal c3 * 10 + digitVal c4, rest)
    else none
  | _ => none

/-- Require a literal character. -/
def expect (c : Char) : List Char → Option (List Char)
  | x :: rest => if x = c then some rest else none
  | [] => none

/-- The date/time separator chrono accepts: `T`, `t`, or a space. -/
def parseSep : List Char → Option (List Char)
  | x :: rest => if x = 'T' || x = 't' || x = ' ' then some rest else none
  | [] => none

/-- Nanoseconds from a fraction's digit run (first nine digits, zero-padded). -/
def fracNanos (ds : List Char) : Nat :=
  ((ds.take 9) ++ List.replicate (9 - ds.length) '0').foldl
    (fun n c => n * 10 + digitVal c) 0

/-- An optional `.digits` fraction: its nanoseconds and the rest. -/
def parseFrac : List Char → Nat × List Char
  | '.' :: rest =>
    let ds := rest.takeWhile Char.isDigit
    if ds.isEmpty then (0, '.' :: rest)
    else (fracNanos ds, rest.dropWhile Char.isDigit)
  | l => (0, l)

/-- A UTC offset: `Z`/`z`, or `±HH:MM` (chrono also accepts `±HHMM`).
Returns the offset in seconds and the rest. -/
def parseOffset : List Char → Option (Int × List Char)
  | 'Z' :: rest => some (0, rest)
  | 'z' :: rest => some (0, rest)
  | '+' :: rest => parseOffsetHM 1 rest
  | '-' :: rest => parseOffsetHM (-1) rest
  | _ => none
where
  /-- `HH:MM` or `HHMM` with bounds, scaled by `sign`. -/
  parseOffsetHM (sign : Int) (l : List Char) : Option (Int × List Char) :=
    match parse2 l with
    | some (h, rest) =>
      let rest' := match rest with
        | ':' :: r => r
        | r => r
      match parse2 rest' with
      | some (m, rest2) =>
        if h < 24 && m < 60 then some (sign * ((h : Int) * 3600 + m * 60), rest2)
        else none
      | none => none
    | none => none

/-- Gregorian leap year. -/
def isLeapYear (y : Int) : Bool := (y % 4 == 0 && y % 100 != 0) || y % 400 == 0

/-- Days in a month of a year. -/
def daysInMonth (y : Int) (m : Nat) : Nat :=
  if m = 2 then (if isLeapYear y then 29 else 28)
  else if m = 4 || m = 6 || m = 9 || m = 11 then 30
  else 31

/-- Days from the Unix epoch to a civil date (proleptic Gregorian). -/
def daysFromCivil (y : Int) (m d : Nat) : Int :=
  let y' := if m ≤ 2 then y - 1 else y
  let era := (if 0 ≤ y' then y' else y' - 399) / 400
  let yoe := y' - era * 400
  let mp := (m + 9) % 12
  let doy := (153 * mp + 2) / 5 + d - 1
  let doe := yoe * 365 + yoe / 4 - yoe / 100 + (doy : Int)
  era * 146097 + doe - 719468

/-- `DateTime<Utc>::from_str` (chrono): parse an RFC 3339 offset-aware
instant — `YYYY-MM-DD` separator `HH:MM:SS` optional fraction, then a
mandatory offset — validate the fields, and normalize to UTC. -/
def parseRfc3339 (s : String) : Option Timestamp := do
  let l := s.toList
  let (y, l) ← parse4 l
  let l ← expect '-' l
  let (mo, l) ← parse2 l
  let l ← expect '-' l
  let (d, l) ← parse2 l
  let l ← parseSep l
  let (h, l) ← parse2 l
  let l ← expect ':' l
  let (mi, l) ← parse2 l
  let l ← expect ':' l
  let (sec, l) ← parse2 l
  let (nanos, l) := parseFrac l
  let (off, l) ← parseOffset l
  guard l.isEmpty
  guard (1 ≤ mo && mo ≤ 12)
  guard (1 ≤ d && d ≤ daysInMonth (y : Int) mo)
  guard (h < 24 && mi < 60 && sec ≤ 60)
  let (sec, nanos) := if sec = 60 then (59, nanos + 1000000000) else (sec, nanos)
  some ⟨daysFromCivil (y : Int) mo d * 86400 + h * 3600 + mi * 60 + sec - off, nanos⟩

/-- `chrono::format::ParseError` as it reaches serde through
`de::Error::custom` (lib.rs line 27): chrono renders a fixed diagnostic
chosen by the failure kind and never includes the parsed input in the error,
so the payload carries no copy of the offending string. The failure kinds
are collapsed into a single value because nothing in the source inspects
them. -/
inductive ChronoParseError where
  | parseError
  deriving Repr, DecidableEq

/-- `TimeStampVisitor::visit_str` (lib.rs lines 18-30): try the string as a
full offset-aware instant; on failure append `+00:00` and retry; when both
fail surface the chrono parse error of the second attempt through
`de::Error::custom`. -/
def TimeStampVisitor.visit_str (value : String) : Except ChronoParseError Timestamp :=
  match parseRfc3339 value with
  | some datetime => .ok datetime
  | none =>
    match parseRfc3339 (value ++ "+00:00") with
    | some datetime => .ok datetime
    | none => .error .parseError

/-! ### Helper lemmas -/

/-- Indexing the hex alphabet below 16 lands in the hex alphabet. -/
theorem getD_hexChars_mem (n : Nat) (h : n < 16) : hexChars.getD n '0' ∈ hexChars := by
  interval_cases n <;> decide

/-- Both characters of a byte's hex rendering are lowercase hex digits. -/
theorem mem_byteHex_mem_hexChars {c : Char} {b : Nat} (h : c ∈ byteHex b) :
    c ∈ hexChars := by
  simp only [byteHex, List.mem_cons, List.not_mem_nil, or_false] at h
  rcases h with rfl | rfl
  · exact getD_hexChars_mem _ (Nat.mod_lt _ (by norm_num))
  · exact getD_hexChars_mem _ (Nat.mod_lt _ (by norm_num))

/-- Hex rendering doubles the length. -/
theorem length_flatMap_byteHex (bs : List Nat) :
    (bs.flatMap byteHex).length = 2 * bs.length := by
  induction bs with
  | nil => rfl
  | cons b rest ih =>
    simp only [List.flatMap_cons, List.length_append, ih, byteHex,
      List.length_cons, List.length_nil, List.length_cons]
    omega

/-- SHA-256 always emits 32 bytes. -/
theorem sha256_length (msg : List Nat) : (sha256 msg).length = 32 := by
  simp [sha256, Sha2State.bytes, wordBE4]

/-- Each big-endian byte of a word is below 256. -/
theorem mem_wordBE4_lt {b n : Nat} (h : b ∈ wordBE4 n) : b < 256 := by
  simp only [wordBE4, List.mem_cons, List.not_mem_nil, or_false] at h
  rcases h with rfl | rfl | rfl | rfl <;> exact Nat.mod_lt _ (by norm_num)

/-- Every SHA-256 output byte is below 256. -/
theorem sha256_lt (msg : List Nat) : ∀ b ∈ sha256 msg, b < 256 := by
  intro b hb
  simp only [sha256, Sha2State.bytes, List.mem_append] at hb
  rcases hb with (((((((h | h) | h) | h) | h) | h) | h) | h) <;> exact mem_wordBE4_lt h

/-- A string of positive length is not the empty string. -/
theorem string_ne_empty_of_length_pos {s : String} (h : 0 < s.length) : s ≠ "" := by
  intro hs
  rw [hs] at h
  exact absurd h (by decide)

/-- The query string of a non-empty pair list is non-empty. -/
theorem queryString_ne_empty (p : String × String) (rest : List (String × String)) :
    queryString (p :: rest) ≠ "" := by
  apply string_ne_empty_of_length_pos
  have hpair : 0 < (formUrlencode p.1 ++ "=" ++ formUrlencode p.2).length := by
    rw [String.length_append, String.length_append]
    have : (("=") : String).length = 1 := rfl
    omega
  simp only [queryString, List.map_cons]
  cases rest with
  | nil => exact hpair
  | cons q qs =>
    rw [List.map_cons, joinAmp, String.length_append, String.length_append]
    omega

end Bitflyer

namespace Bitflyer

/-! ### Claim theorems -/

set_option maxRecDepth 100000

/-- C2: every value of `ParentOrderMethod` satisfies the arity invariant by
construction — `Simple` holds exactly 1 condition, `Ifd` 2, `Oco` 2 and
`Ifdoco` 3, because each variant stores its conditions in a fixed-length
array (`Arr _ n`), so no value with a different count can exist. -/
theorem parentOrderMethod_arity_invariant (m : ParentOrderMethod) :
    m.parameters.length = m.arity ∧
    (∀ p, m = .Simple p → m.parameters.length = 1) ∧
    (∀ p, m = .Ifd p → m.parameters.length = 2) ∧
    (∀ p, m = .Oco p → m.parameters.length = 2) ∧
    (∀ p, m = .Ifdoco p → m.parameters.length = 3) := by
  refine ⟨?_, ?_, ?_, ?_, ?_⟩
  · cases m with
    | Simple p => exact p.property
    | Ifd p => exact p.property
    | Oco p => exact p.property
    | Ifdoco p => exact p.property
  all_goals rintro p rfl
  all_goals exact p.property

/-- C2 witness: an `Ifd` value with its two conditions has arity 2. -/
theorem parentOrderMethod_arity_invariant_witness :
    (ParentOrderMethod.Ifd
      ⟨[.Market .BtcJpy .Buy ⟨1, 0⟩, .Market .BtcJpy .Sell ⟨1, 0⟩], rfl⟩).parameters.length = 2 :=
  (parentOrderMethod_arity_invariant _).2.2.1 _ rfl

/-- C5 counterexample: the source declares exactly three descriptors that
override `deserialize_response_body` to demand an empty success body
(`CancelChildOrder`, `CancelParentOrder`, `CancelAllChildOrders`) — there is
no fourth cancellation endpoint. -/
theorem cancellationEndpoints_three_not_four :
    cancellationEndpoints.length = 3 ∧ cancellationEndpoints.length ≠ 4 :=
  ⟨rfl, by intro h; rw [show cancellationEndpoints.length = 3 from rfl] at h; exact absurd h (by decide)⟩

/-- C5 (amended): for each of the three cancellation endpoints,
`deserialize_response_body` succeeds with the empty response value exactly on
the empty raw body, and fails with the body-not-empty error exactly on a
non-empty raw body. -/
theorem cancel_decode_empty_body (body : String) :
    (CancelChildOrder.deserialize_response_body body = .ok ⟨⟩ ↔ body = "") ∧
    (CancelParentOrder.deserialize_response_body body = .ok ⟨⟩ ↔ body = "") ∧
    (CancelAllChildOrders.deserialize_response_body body = .ok ⟨⟩ ↔ body = "") ∧
    (CancelChildOrder.deserialize_response_body body = .error "body is not empty" ↔ body ≠ "") ∧
    (CancelParentOrder.deserialize_response_body body = .error "body is not empty" ↔ body ≠ "") ∧
    (CancelAllChildOrders.deserialize_response_body body = .error "body is not empty" ↔ body ≠ "") := by
  by_cases h : body = "" <;>
    simp [CancelChildOrder.deserialize_response_body,
      CancelParentOrder.deserialize_response_body,
      CancelAllChildOrders.deserialize_response_body,
      String.isEmpty_iff, h]

/-- C9: `send_api` always hands the transport exactly one plain GET of the
descriptor's URL — no headers, no body — whatever `METHOD` and `IS_PRIVATE`
the descriptor declares. -/
theorem send_api_always_plain_get (ρ : Type) (d : ApiRequestImpl ρ)
    (transport : HttpRequest → HttpResponse) :
    (send_api d transport).2 = [⟨"GET", d.url.full, [], none⟩] := by
  unfold send_api
  dsimp only
  split <;> rfl

/-- C10: whenever `parent_order_id` is set on a `GetChildOrders` request, the
present query parameters carry its value under the key `child_order_id`, and
no parameter is named `parent_order_id`. -/
theorem getChildOrders_parent_order_id_key (r : GetChildOrders) (v : String)
    (h : r.parent_order_id = some v) :
    ("child_order_id", v) ∈ r.url_params.filterMap id ∧
    ∀ p ∈ r.url_params.filterMap id, p.1 ≠ "parent_order_id" := by
  constructor
  · rw [List.mem_filterMap]
    refine ⟨some ("child_order_id", v), ?_, rfl⟩
    simp [GetChildOrders.url_params, to_query_parameter, h]
  · intro p hp
    rw [List.mem_filterMap] at hp
    obtain ⟨a, ha, hpa⟩ := hp
    simp only [id_eq] at hpa
    subst hpa
    simp only [GetChildOrders.url_params, to_query_parameter, List.mem_cons,
      List.not_mem_nil, or_false] at ha
    rcases ha with ha | ha | ha | ha | ha | ha <;>
      · rcases Option.map_eq_some'.mp ha.symm with ⟨x, -, rfl⟩
        simp

/-- C6: the internally tagged closed sets (`ChildOrderType`,
`ParentOrderConditionType`) reject every undeclared discriminator string,
while `ProductCode` — the one open set — decodes any unrecognized string
(such as "DOGE_JPY") to `Other` instead of failing. -/
theorem closed_tags_fail_open_product_code_falls_back :
    (∀ (j : Json) (t : String), j.tag "child_order_type" = some t →
        t ∉ childOrderTypeTags → (decodeChildOrderType j).isOk = false) ∧
    (∀ (j : Json) (t : String), j.tag "condition_type" = some t →
        t ∉ parentOrderConditionTags →
        (decodeParentOrderConditionType j).isOk = false) ∧
    decodeProductCode (.str "DOGE_JPY") = .ok .Other ∧
    (∀ s : String,
        s ∉ ["BTC_JPY", "XRP_JPY", "ETH_JPY", "XLM_JPY", "MONA_JPY",
             "ETH_BTC", "BCH_BTC", "FX_BTC_JPY"] →
        decodeProductCode (.str s) = .ok .Other) := by
  refine ⟨?_, ?_, rfl, ?_⟩
  · intro j t ht hmem
    simp only [childOrderTypeTags, List.mem_cons, List.not_mem_nil, or_false,
      not_or] at hmem
    obtain ⟨h1, h2⟩ := hmem
    unfold decodeChildOrderType
    rw [ht]
    simp [h1, h2, Except.isOk, Except.toBool]
  · intro j t ht hmem
    simp only [parentOrderConditionTags, List.mem_cons, List.not_mem_nil,
      or_false, not_or] at hmem
    obtain ⟨h1, h2, h3, h4, h5⟩ := hmem
    unfold decodeParentOrderConditionType
    rw [ht]
    dsimp only
    split
    · split <;> simp [h1, h2, h3, h4, h5, Except.isOk, Except.toBool]
    · simp [Except.isOk, Except.toBool]
  · intro s hmem
    simp only [List.mem_cons, List.not_mem_nil, or_false, not_or] at hmem
    obtain ⟨h1, h2, h3, h4, h5, h6, h7, h8⟩ := hmem
    simp [decodeProductCode, h1, h2, h3, h4, h5, h6, h7, h8]

/-- C6 witness: the unknown tag "DOGE" fails both closed sets; the unknown
product code "DOGE_JPY" decodes to `Other`. -/
theorem closed_tags_fail_open_product_code_falls_back_witness :
    (decodeChildOrderType (.obj [("child_order_type", .str "DOGE")])).isOk = false ∧
    (decodeParentOrderConditionType (.obj [("condition_type", .str "DOGE")])).isOk = false ∧
    decodeProductCode (.str "DOGE_JPY") = .ok .Other :=
  ⟨closed_tags_fail_open_product_code_falls_back.1 _ "DOGE" rfl (by decide),
   closed_tags_fail_open_product_code_falls_back.2.1 _ "DOGE" rfl (by decide),
   closed_tags_fail_open_product_code_falls_back.2.2.2 "DOGE_JPY" (by decide)⟩

/-- C3 counterexample: the decode error does not carry the offending string —
two different failing inputs produce identical error values, because the
payload is chrono's parse error (a fixed diagnostic), not the input. Had the
error carried the offending string, these two results would differ. -/
theorem timestamp_error_not_carrying_input :
    TimeStampVisitor.visit_str "not-a-date" =
      TimeStampVisitor.visit_str "still-not-a-date" ∧
    TimeStampVisitor.visit_str "not-a-date" = .error .parseError :=
  ⟨rfl, rfl⟩

/-- C3 (amended): the timestamp decoder first tries the string as a full
offset-aware instant, then retries with "+00:00" appended, and yields a
decode error (chrono's parse error, which does not carry the offending
string) exactly when both attempts fail; the two sample timestamps decode
and "not-a-date" fails. -/
theorem timestamp_two_attempt_fallback :
    (∀ s dt, parseRfc3339 s = some dt → TimeStampVisitor.visit_str s = .ok dt) ∧
    (∀ s dt, parseRfc3339 s = none → parseRfc3339 (s ++ "+00:00") = some dt →
        TimeStampVisitor.visit_str s = .ok dt) ∧
    (∀ s, TimeStampVisitor.visit_str s = .error .parseError ↔
        parseRfc3339 s = none ∧ parseRfc3339 (s ++ "+00:00") = none) ∧
    (TimeStampVisitor.visit_str "2015-07-08T02:50:59.97").isOk = true ∧
    (TimeStampVisitor.visit_str "2015-07-08T02:50:59.97+09:00").isOk = true ∧
    TimeStampVisitor.visit_str "not-a-date" = .error .parseError := by
  refine ⟨?_, ?_, ?_, by decide, by decide, by rfl⟩
  · intro s dt h
    unfold TimeStampVisitor.visit_str
    rw [h]
  · intro s dt h1 h2
    unfold TimeStampVisitor.visit_str
    rw [h1, h2]
  · intro s
    constructor
    · intro h
      unfold TimeStampVisitor.visit_str at h
      cases h1 : parseRfc3339 s with
      | some dt => rw [h1] at h; exact absurd h (by simp)
      | none =>
        cases h2 : parseRfc3339 (s ++ "+00:00") with
        | some dt => rw [h1, h2] at h; exact absurd h (by simp)
        | none => exact ⟨rfl, rfl⟩
    · rintro ⟨h1, h2⟩
      unfold TimeStampVisitor.visit_str
      rw [h1, h2]

/-- C3 witness: both attempts exercised on the sample timestamps. -/
theorem timestamp_two_attempt_fallback_witness :
    TimeStampVisitor.visit_str "2015-07-08T02:50:59.97+09:00" =
      .ok ⟨1436291459, 970000000⟩ ∧
    TimeStampVisitor.visit_str "2015-07-08T02:50:59.97" =
      .ok ⟨1436323859, 970000000⟩ :=
  ⟨timestamp_two_attempt_fallback.1 _ _ (by decide),
   timestamp_two_attempt_fallback.2.1 _ _ (by decide) (by decide)⟩

/-- C1: the canonical signing string is exactly
`timestamp ∥ METHOD ∥ PATH ∥ ("?" ∥ query | "") ∥ (body | "")`; the emitted
signature is the lowercase-hex HMAC-SHA256 of that string under the secret
(64 lowercase hex characters), deterministic in its inputs, and matches the
RFC 4231 reference vector (key "Jefe"). -/
theorem signing_canonical_string_and_digest :
    (∀ (ts : Int) (method path : String) (query body : Option String),
        signData ts method path query body =
          toString ts ++ method ++ path ++
            (match query with
             | some q => "?" ++ q
             | none => "") ++
            (match body with
             | some b => b
             | none => "")) ∧
    (∀ (secret : List Nat) (data : String),
        accessSign secret data = bytesToHex (hmacSha256 secret (utf8Bytes data))) ∧
    (∀ (secret : List Nat) (data : String),
        (accessSign secret data).length = 64 ∧
        ∀ c ∈ (accessSign secret data).toList, c ∈ hexChars) ∧
    accessSign (utf8Bytes "Jefe") "what do ya want for nothing?" =
      "5bdcc146bf60754e6a042426089575c75a003f089d2739839dec58b964ec3843" ∧
    (∀ (s1 s2 : List Nat) (d1 d2 : String), s1 = s2 → d1 = d2 →
        accessSign s1 d1 = accessSign s2 d2) := by
  refine ⟨?_, fun _ _ => rfl, ?_, by decide, ?_⟩
  · intro ts method path query body
    cases query <;> cases body <;> rfl
  · intro secret data
    have hlen : (hmacSha256 secret (utf8Bytes data)).length = 32 := by
      unfold hmacSha256
      exact sha256_length _
    constructor
    · have h2 : (bytesToHex (hmacSha256 secret (utf8Bytes data))).length =
          2 * (hmacSha256 secret (utf8Bytes data)).length :=
        length_flatMap_byteHex _
      rw [hlen] at h2
      exact h2
    · intro c hc
      have hc' : c ∈ (hmacSha256 secret (utf8Bytes data)).flatMap byteHex := hc
      rw [List.mem_flatMap] at hc'
      obtain ⟨b, -, hcb⟩ := hc'
      exact mem_byteHex_mem_hexChars hcb
  · intro s1 s2 d1 d2 h1 h2
    rw [h1, h2]

/-- C1 witness: determinism and hex-alphabet membership at a concrete key. -/
theorem signing_canonical_string_and_digest_witness :
    accessSign [] "" = accessSign [] "" ∧ 'b' ∈ hexChars :=
  ⟨signing_canonical_string_and_digest.2.2.2.2 [] [] "" "" rfl rfl,
   (signing_canonical_string_and_digest.2.2.1 [] "").2 'b' (by decide)⟩

/-- C4: `url()` drops absent pairs, renders the kept pairs in declared order
form-urlencoded, produces no query component at all when nothing remains,
never produces an empty `some` query, and stringifies `ProductCode` to its
wire-format name. -/
theorem url_query_building :
    (∀ (path : String) (params : List (Option (String × String))),
        params.filterMap id = [] →
        buildUrl path params = ⟨ENTRY_POINT ++ path, none⟩) ∧
    (∀ (path : String) (params : List (Option (String × String))),
        params.filterMap id ≠ [] →
        buildUrl path params =
          ⟨ENTRY_POINT ++ path ++ "?" ++ queryString (params.filterMap id),
           some (queryString (params.filterMap id))⟩) ∧
    (∀ ps : List (String × String),
        queryString ps =
          joinAmp (ps.map (fun p => formUrlencode p.1 ++ "=" ++ formUrlencode p.2))) ∧
    (∀ path params q, (buildUrl path params).query = some q → q ≠ "") ∧
    (ProductCode.to_string .BtcJpy = "BTC_JPY" ∧
     ProductCode.to_string .XrpJpy = "XRP_JPY" ∧
     ProductCode.to_string .EthJpy = "ETH_JPY" ∧
     ProductCode.to_string .XlmJpy = "XLM_JPY" ∧
     ProductCode.to_string .MonaJpy = "MONA_JPY" ∧
     ProductCode.to_string .EthBtc = "ETH_BTC" ∧
     ProductCode.to_string .BchBtc = "BCH_BTC" ∧
     ProductCode.to_string .FxBtcJpy = "FX_BTC_JPY") ∧
    buildUrl GetTicker.PATH (GetTicker.url_params ⟨some .BtcJpy⟩) =
      ⟨"https://api.bitflyer.com/v1/ticker?product_code=BTC_JPY",
       some "product_code=BTC_JPY"⟩ ∧
    buildUrl GetTicker.PATH (GetTicker.url_params ⟨none⟩) =
      ⟨"https://api.bitflyer.com/v1/ticker", none⟩ := by
  refine ⟨?_, ?_, fun _ => rfl, ?_, by decide, by decide, by decide⟩
  · intro path params h
    simp [buildUrl, h]
  · intro path params h
    simp [buildUrl, h]
  · intro path params q hq
    unfold buildUrl at hq
    rcases hps : params.filterMap id with _ | ⟨p, rest⟩
    · rw [hps] at hq
      simp at hq
    · rw [hps] at hq
      simp at hq
      rw [← hq]
      exact queryString_ne_empty p rest

/-- C4 witness: an empty filtered list and a concrete non-empty query. -/
theorem url_query_building_witness :
    buildUrl "/v1/markets" [] = ⟨ENTRY_POINT ++ "/v1/markets", none⟩ ∧
    "product_code=BTC_JPY" ≠ "" :=
  ⟨url_query_building.1 "/v1/markets" [] rfl,
   url_query_building.2.2.2.1 "/v1/ticker" [some ("product_code", "BTC_JPY")]
     "product_code=BTC_JPY" (by decide)⟩

/-- C7: a private call with no configured secret fails with the
authentication error and hands nothing to the transport — the outcome does
not depend on the transport at all. -/
theorem private_without_secret_fails_before_network (ρ : Type) (c : Client)
    (now : Int) (d : ApiRequestImpl ρ) (t1 t2 : HttpRequest → HttpResponse)
    (hpriv : d.IS_PRIVATE = true) (hsec : c.hasher = none) :
    (c.send now d t1).2 = [] ∧
    (∀ b, d.body = .ok b → (c.send now d t1).1 = .error "hasher is none") ∧
    c.send now d t1 = c.send now d t2 := by
  rcases hb : d.body with e | b <;>
    simp [Client.send, hpriv, hsec, hb]

/-- C7 witness: a private GET with no secret configured. -/
theorem private_without_secret_fails_before_network_witness :
    ((Client.mk "key" none).send 0
        (⟨"/v1/me/getpermissions", true, "GET", [], .ok none,
          fun _ => .error "unused", fun _ => .error "unused"⟩ :
          ApiRequestImpl (List String))
        (fun _ => ⟨200, "[]"⟩)).2 = [] ∧
    ((Client.mk "key" none).send 0
        (⟨"/v1/me/getpermissions", true, "GET", [], .ok none,
          fun _ => .error "unused", fun _ => .error "unused"⟩ :
          ApiRequestImpl (List String))
        (fun _ => ⟨200, "[]"⟩)).1 = .error "hasher is none" := by
  have h := private_without_secret_fails_before_network (List String)
    (Client.mk "key" none) 0
    ⟨"/v1/me/getpermissions", true, "GET", [], .ok none,
     fun _ => .error "unused", fun _ => .error "unused"⟩
    (fun _ => ⟨200, "[]"⟩) (fun _ => ⟨200, "[]"⟩) rfl rfl
  exact ⟨h.1, h.2.1 none rfl⟩

/-- C8: a private call issues exactly one request carrying exactly the three
authentication headers — the API key verbatim, the same timestamp as in the
signing string, and the hex digest — plus `Content-Type: application/json`
exactly when a body is present; a public call carries no headers. -/
theorem private_request_headers (ρ : Type) (c : Client) (now : Int)
    (d : ApiRequestImpl ρ) (t : HttpRequest → HttpResponse) :
    (∀ (secret : List Nat) (b : Option String),
        d.IS_PRIVATE = true → c.hasher = some secret → d.body = .ok b →
        (c.send now d t).2 =
          [⟨d.METHOD, d.url.full,
            [("ACCESS-KEY", c.api_key), ("ACCESS-TIMESTAMP", toString now),
             ("ACCESS-SIGN",
              accessSign secret (signData now d.METHOD d.PATH d.url.query b))] ++
              (match b with
               | some _ => [("Content-Type", "application/json")]
               | none => []),
            b⟩]) ∧
    (d.IS_PRIVATE = false →
        (c.send now d t).2 = [⟨d.METHOD, d.url.full, [], none⟩]) := by
  constructor
  · intro secret b hpriv hsec hb
    rcases b with _ | bs <;> simp [Client.send, hpriv, hsec, hb]
  · intro hpub
    simp [Client.send, hpub]

/-- C8 witness: a private bodyless GET with a concrete secret, and the
resulting header list. -/
theorem private_request_headers_witness :
    ((Client.mk "APIKEY" (some [1, 2])).send 5
        (⟨"/v1/me/getbalance", true, "GET", [], .ok none,
          fun _ => .error "unused", fun _ => .error "unused"⟩ :
          ApiRequestImpl (List String))
        (fun _ => ⟨200, "[]"⟩)).2 =
      [⟨"GET", ENTRY_POINT ++ "/v1/me/getbalance",
        [("ACCESS-KEY", "APIKEY"), ("ACCESS-TIMESTAMP", toString (5 : Int)),
         ("ACCESS-SIGN", accessSign [1, 2] (signData 5 "GET" "/v1/me/getbalance" none none))],
        none⟩] := by
  have h := (private_request_headers (List String) (Client.mk "APIKEY" (some [1, 2])) 5
      ⟨"/v1/me/getbalance", true, "GET", [], .ok none,
       fun _ => .error "unused", fun _ => .error "unused"⟩
      (fun _ => ⟨200, "[]"⟩)).1 [1, 2] none rfl rfl rfl
  simpa [ApiRequestImpl.url, buildUrl] using h

/-- C10 witness: a request with only `parent_order_id = some "JOR-123"`. -/
theorem getChildOrders_parent_order_id_key_witness :
    ("child_order_id", "JOR-123") ∈
      (GetChildOrders.url_params ⟨none, none, none, none, none, some "JOR-123"⟩).filterMap id ∧
    ∀ p ∈ (GetChildOrders.url_params
        ⟨none, none, none, none, none, some "JOR-123"⟩).filterMap id,
      p.1 ≠ "parent_order_id" :=
  getChildOrders_parent_order_id_key ⟨none, none, none, none, none, some "JOR-123"⟩
    "JOR-123" rfl

end Bitflyer
